import Mathlib

/-!
# FragmentsViewer — verification of the model-load sequencer and camera framer

Shallow embedding of `source/main.ts`. The load path (`LoadModelFromBuffer`,
`LoadModelFromUrl`, `LoadModelFromUrlHash`, `LoadModelInternal`, the drop
handler) is modelled as a trace semantics: each operation, given an
environment saying which external calls throw, produces the list of
observable effects it performs together with a flag saying whether it
propagates an exception to its caller.  The camera framer
(`FitModelToWindow`) is modelled over the real numbers, mirroring the
`three.js` vector/box/sphere operations the code calls.
-/

/-- `const ModelIdentifier = 'model'` — the fixed model slot key. -/
def ModelIdentifier : String := "model"

/-- Observable effects of the load path, in program order:
calls into the decode service (`disposeModel`, `fragments.load`,
`fragments.update(true)`), progress-bar manipulation, the network fetch and
body read, the `childadded` listener registration, and the camera re-frame. -/
inductive Event where
  | disposeModel (slot : String)
  | forceUpdate
  | progressShow
  | progressSetText (text : String)
  | progressHide
  | fetchUrl (url : String)
  | readBody
  | submitToDecode (slot : String)
  | modelRegistered (slot : String)
  | addChildAddedListener
  | fitToWindow
deriving DecidableEq, Repr

/-- Which awaited external calls throw in a given run. -/
structure Env where
  fetchThrows : Bool
  bodyThrows : Bool
  decodeThrows : Bool
deriving DecidableEq, Repr

/-- The `try` body of `LoadModelInternal`: `fragments.load (buffer,
{ modelId: ModelIdentifier })`, then on success the `childadded` listener
registration and `FitModelToWindow`.  Second component: whether this body
throws. -/
def LoadModelInternalBody (env : Env) : List Event × Bool :=
  if env.decodeThrows then
    ([Event.submitToDecode ModelIdentifier], true)
  else
    ([Event.submitToDecode ModelIdentifier,
      Event.modelRegistered ModelIdentifier,
      Event.addChildAddedListener,
      Event.fitToWindow], false)

/-- `LoadModelInternal`: the body above wrapped in `try { ... } catch { }`,
so it never propagates an exception. -/
def LoadModelInternal (env : Env) : List Event × Bool :=
  ((LoadModelInternalBody env).1, false)

/-- `LoadModelFromBuffer`: dispose the slot, force an update, show the
progress bar with text, run `LoadModelInternal`, hide the progress bar.
The hide runs only if `LoadModelInternal` returns normally (which it
always does). -/
def LoadModelFromBuffer (env : Env) : List Event × Bool :=
  let pre := [Event.disposeModel ModelIdentifier, Event.forceUpdate,
              Event.progressShow, Event.progressSetText "Loading model..."]
  let inner := LoadModelInternal env
  if inner.2 then (pre ++ inner.1, true)
  else (pre ++ inner.1 ++ [Event.progressHide], false)

/-- The `try` body of `LoadModelFromUrl`: set the "Downloading" text, fetch
the url, read the body, set the "Loading" text, run `LoadModelInternal`. -/
def LoadModelFromUrlBody (env : Env) (url : String) : List Event × Bool :=
  let pre := [Event.progressSetText "Downloading model...", Event.fetchUrl url]
  if env.fetchThrows then (pre, true)
  else
    let pre2 := pre ++ [Event.readBody]
    if env.bodyThrows then (pre2, true)
    else
      let inner := LoadModelInternal env
      (pre2 ++ [Event.progressSetText "Loading model..."] ++ inner.1, inner.2)

/-- `LoadModelFromUrl`: dispose the slot, force an update, show the progress
bar, run the try body above with its exceptions swallowed by `catch { }`,
then hide the progress bar unconditionally. -/
def LoadModelFromUrl (env : Env) (url : String) : List Event × Bool :=
  ([Event.disposeModel ModelIdentifier, Event.forceUpdate, Event.progressShow]
    ++ (LoadModelFromUrlBody env url).1 ++ [Event.progressHide], false)

/-- `LoadModelFromUrlHash`: return if `hash.length === 0`, otherwise delegate
to `LoadModelFromUrl (hash.substring (1))`. -/
def LoadModelFromUrlHash (env : Env) (hash : String) : List Event × Bool :=
  if hash.length = 0 then ([], false)
  else LoadModelFromUrl env (hash.drop 1)

/-- A dropped file as the drop handler sees it: `file.arrayBuffer ()` may
yield `undefined` (modelled as `none`). -/
structure DropFile where
  arrayBuffer : Option Unit
deriving DecidableEq, Repr

/-- A `DataTransferItem`: `getAsFile ()` may return `null`. -/
structure DropItem where
  getAsFile : Option DropFile
deriving DecidableEq, Repr

/-- The `drop` listener in `Init`: reject payloads whose item count is not
exactly one, then the null-file and undefined-buffer guards, then
`LoadModelFromBuffer`. -/
def DropHandler (env : Env) (items : List DropItem) : List Event × Bool :=
  if items.length ≠ 1 then ([], false)
  else
    match items.head? with
    | none => ([], false)
    | some item =>
      match item.getAsFile with
      | none => ([], false)
      | some file =>
        match file.arrayBuffer with
        | none => ([], false)
        | some _ => LoadModelFromBuffer env

/-- A load operation of the sequencer, for reasoning about sequences of
loads. -/
inductive LoadOp where
  | fromBuffer (env : Env)
  | fromUrl (env : Env) (url : String)
deriving DecidableEq, Repr

/-- Trace of one load operation. -/
def opTrace : LoadOp → List Event
  | .fromBuffer env => (LoadModelFromBuffer env).1
  | .fromUrl env url => (LoadModelFromUrl env url).1

/-- Trace of a sequence of load operations run back to back. -/
def opsTrace : List LoadOp → List Event
  | [] => []
  | op :: rest => opTrace op ++ opsTrace rest

/-- Progress-bar visibility after a trace, given the initial visibility:
the constructor shows it (`display = 'inherit'`), `Hide` hides it. -/
def progressVisibleAfter (visible : Bool) : List Event → Bool
  | [] => visible
  | Event.progressShow :: rest => progressVisibleAfter true rest
  | Event.progressHide :: rest => progressVisibleAfter false rest
  | _ :: rest => progressVisibleAfter visible rest

/-- Whether a model occupies the slot after a trace, given the initial
occupancy: `disposeModel` empties the slot, a successful decode fills it. -/
def modelLoadedAfter (loaded : Bool) : List Event → Bool
  | [] => loaded
  | Event.disposeModel s :: rest =>
      modelLoadedAfter (if s = ModelIdentifier then false else loaded) rest
  | Event.modelRegistered s :: rest =>
      modelLoadedAfter (if s = ModelIdentifier then true else loaded) rest
  | _ :: rest => modelLoadedAfter loaded rest

/-- `THREE.Vector3`. -/
@[ext]
structure Vec3 where
  x : ℝ
  y : ℝ
  z : ℝ

/-- `THREE.Vector3.subVectors (a, b)` — componentwise `a - b`. -/
noncomputable def Vec3.subVectors (a b : Vec3) : Vec3 :=
  ⟨a.x - b.x, a.y - b.y, a.z - b.z⟩

/-- `THREE.Vector3.addVectors (a, b)` — componentwise `a + b`. -/
noncomputable def Vec3.addVectors (a b : Vec3) : Vec3 :=
  ⟨a.x + b.x, a.y + b.y, a.z + b.z⟩

/-- `THREE.Vector3.multiplyScalar (c)`. -/
noncomputable def Vec3.multiplyScalar (v : Vec3) (c : ℝ) : Vec3 :=
  ⟨v.x * c, v.y * c, v.z * c⟩

/-- `THREE.Vector3.length ()`. -/
noncomputable def Vec3.length (v : Vec3) : ℝ :=
  Real.sqrt (v.x * v.x + v.y * v.y + v.z * v.z)

/-- `THREE.Vector3.normalize ()`: `divideScalar (this.length () || 1)`, so a
zero-length vector is divided by `1` and stays the zero vector. -/
noncomputable def Vec3.normalize (v : Vec3) : Vec3 :=
  if v.length = 0 then v else v.multiplyScalar (1 / v.length)

/-- Componentwise minimum, as in `THREE.Vector3.min`. -/
noncomputable def Vec3.minV (a b : Vec3) : Vec3 :=
  ⟨min a.x b.x, min a.y b.y, min a.z b.z⟩

/-- Componentwise maximum, as in `THREE.Vector3.max`. -/
noncomputable def Vec3.maxV (a b : Vec3) : Vec3 :=
  ⟨max a.x b.x, max a.y b.y, max a.z b.z⟩

/-- `THREE.Box3`: an axis-aligned box given by its two corners. -/
@[ext]
structure Box3 where
  min : Vec3
  max : Vec3

/-- `THREE.Box3.expandByPoint (p)`. -/
noncomputable def Box3.expandByPoint (b : Box3) (p : Vec3) : Box3 :=
  ⟨b.min.minV p, b.max.maxV p⟩

/-- `new THREE.Box3 ().setFromPoints (pts)`: starting from the empty box,
expand by each point in turn.  The empty box (infinite corners) only
matters when the point list is empty, which we represent as `none`. -/
noncomputable def Box3.setFromPoints : List Vec3 → Option Box3
  | [] => none
  | p :: ps => some (ps.foldl Box3.expandByPoint ⟨p, p⟩)

/-- `THREE.Sphere`. -/
@[ext]
structure Sphere where
  center : Vec3
  radius : ℝ

/-- `THREE.Box3.getBoundingSphere (target)`: center is the box midpoint,
radius is half the length of the box diagonal (`getSize ().length () * 0.5`). -/
noncomputable def Box3.getBoundingSphere (b : Box3) : Sphere :=
  ⟨(b.min.addVectors b.max).multiplyScalar (1 / 2 : ℝ),
   (b.max.subVectors b.min).length / 2⟩

/-- The loop in `FitModelToWindow` that pushes `box.min` and `box.max` for
every box returned by `model.getBoxes ()`. -/
noncomputable def boxMinMaxPoints : List Box3 → List Vec3
  | [] => []
  | b :: rest => b.min :: b.max :: boxMinMaxPoints rest

/-- Bounding sphere of the min/max point set of the model's boxes.  With no
boxes, `THREE` leaves the box empty and `getBoundingSphere` yields center
`(0,0,0)` and radius `0` (`getCenter`/`getSize` of an empty box). -/
noncomputable def sphereOfBoxes (boxes : List Box3) : Sphere :=
  match Box3.setFromPoints (boxMinMaxPoints boxes) with
  | none => ⟨⟨0, 0, 0⟩, 0⟩
  | some b => b.getBoundingSphere

/-- `THREE.MathUtils.degToRad`. -/
noncomputable def degToRad (degrees : ℝ) : ℝ :=
  degrees * (Real.pi / 180)

/-- The camera state `FitModelToWindow` reads and writes: position, look-at
target, vertical field of view (degrees), aspect ratio, near/far planes. -/
structure CameraState where
  position : Vec3
  target : Vec3
  fov : ℝ
  aspect : ℝ
  near : ℝ
  far : ℝ

/-- The `fieldOfView` computation in `FitModelToWindow`: half the vertical
field of view, scaled by the aspect ratio when `aspect < 1.0`. -/
noncomputable def effectiveHalfFov (fov aspect : ℝ) : ℝ :=
  let fieldOfView := fov / 2
  if aspect < 1 then fieldOfView * aspect else fieldOfView

/-- `FitModelToWindow`: return unchanged when no model occupies the slot or
the camera has no controls; otherwise compute the bounding sphere of the
boxes' min/max corners, the effective half field of view, the distance
`radius / sin (degToRad fieldOfView)`, and the new eye
`center + normalize (position - center) * distance`; set `near = 1`,
`far = distance * 100`, and look from the eye at the center. -/
noncomputable def FitModelToWindow (boxes? : Option (List Box3))
    (hasControls : Bool) (cam : CameraState) : CameraState :=
  match boxes?, hasControls with
  | none, _ => cam
  | some _, false => cam
  | some boxes, true =>
    let boundingSphere := sphereOfBoxes boxes
    let fieldOfView := effectiveHalfFov cam.fov cam.aspect
    let center := boundingSphere.center
    let centerToEye := (cam.position.subVectors center).normalize
    let distance := boundingSphere.radius / Real.sin (degToRad fieldOfView)
    let eye := center.addVectors (centerToEye.multiplyScalar distance)
    { cam with position := eye, target := center, near := 1, far := distance * 100 }

/-- `THREE.DoubleSide` and friends. -/
inductive Side where
  | FrontSide
  | BackSide
  | DoubleSide
deriving DecidableEq, Repr

/-- A material of a scene-graph child, as touched by the listener. -/
structure Material where
  side : Side
deriving DecidableEq, Repr

/-- A mesh added to the model's scene-graph root, carrying its material
array. -/
structure MeshChild where
  material : List Material
deriving DecidableEq, Repr

/-- The `childadded` listener registered in `LoadModelInternal`: for every
material of the added child, set `material.side = THREE.DoubleSide`. -/
def onChildAdded (child : MeshChild) : MeshChild :=
  ⟨child.material.map (fun m => { m with side := Side.DoubleSide })⟩

/-! ## Sample inputs used as witnesses -/

/-- The unit-ish box `(-1,-1,-1)…(1,1,1)`. -/
noncomputable def boxA : Box3 := ⟨⟨-1, -1, -1⟩, ⟨1, 1, 1⟩⟩

/-- The box `(1,1,1)…(3,3,3)`. -/
noncomputable def boxB : Box3 := ⟨⟨1, 1, 1⟩, ⟨3, 3, 3⟩⟩

/-- A camera at `(10,0,0)`, landscape aspect `2`, vertical fov `60`. -/
noncomputable def camA : CameraState := ⟨⟨10, 0, 0⟩, ⟨0, 0, 0⟩, 60, 2, 1, 1000⟩

/-- A camera sitting exactly at the origin. -/
noncomputable def camB : CameraState := ⟨⟨0, 0, 0⟩, ⟨5, 5, 5⟩, 60, 2, 1, 1000⟩

/-! ## Vector lemmas -/

theorem Vec3.length_nonneg (v : Vec3) : 0 ≤ v.length :=
  Real.sqrt_nonneg _

theorem Vec3.length_eq_zero_iff (v : Vec3) : v.length = 0 ↔ v = ⟨0, 0, 0⟩ := by
  unfold Vec3.length
  constructor
  · intro h
    have hnn : 0 ≤ v.x * v.x + v.y * v.y + v.z * v.z :=
      add_nonneg (add_nonneg (mul_self_nonneg _) (mul_self_nonneg _)) (mul_self_nonneg _)
    have h0 : v.x * v.x + v.y * v.y + v.z * v.z = 0 :=
      (Real.sqrt_eq_zero hnn).mp h
    have hx : v.x * v.x = 0 := by
      nlinarith [mul_self_nonneg v.x, mul_self_nonneg v.y, mul_self_nonneg v.z]
    have hy : v.y * v.y = 0 := by
      nlinarith [mul_self_nonneg v.x, mul_self_nonneg v.y, mul_self_nonneg v.z]
    have hz : v.z * v.z = 0 := by
      nlinarith [mul_self_nonneg v.x, mul_self_nonneg v.y, mul_self_nonneg v.z]
    ext
    · exact mul_self_eq_zero.mp hx
    · exact mul_self_eq_zero.mp hy
    · exact mul_self_eq_zero.mp hz
  · intro h
    subst h
    norm_num

theorem Vec3.length_multiplyScalar (v : Vec3) (c : ℝ) :
    (v.multiplyScalar c).length = |c| * v.length := by
  unfold Vec3.multiplyScalar Vec3.length
  dsimp only
  rw [show v.x * c * (v.x * c) + v.y * c * (v.y * c) + v.z * c * (v.z * c)
      = c ^ 2 * (v.x * v.x + v.y * v.y + v.z * v.z) by ring]
  rw [Real.sqrt_mul (sq_nonneg c), Real.sqrt_sq_eq_abs]

theorem Vec3.length_normalize (v : Vec3) (h : v.length ≠ 0) :
    v.normalize.length = 1 := by
  unfold Vec3.normalize
  rw [if_neg h, Vec3.length_multiplyScalar]
  have hpos : 0 < v.length := lt_of_le_of_ne v.length_nonneg (Ne.symm h)
  rw [abs_of_pos (by positivity)]
  field_simp

theorem Vec3.addVectors_sub_cancel (c w : Vec3) :
    (c.addVectors w).subVectors c = w := by
  unfold Vec3.addVectors Vec3.subVectors
  ext <;> dsimp only <;> ring

theorem Vec3.subVectors_eq_zero_iff (a b : Vec3) :
    a.subVectors b = ⟨0, 0, 0⟩ ↔ a = b := by
  unfold Vec3.subVectors
  constructor
  · intro h
    have hx := congrArg Vec3.x h
    have hy := congrArg Vec3.y h
    have hz := congrArg Vec3.z h
    dsimp only at hx hy hz
    ext <;> linarith
  · intro h
    subst h
    ext <;> dsimp only <;> ring

theorem Vec3.normalize_zero : (⟨0, 0, 0⟩ : Vec3).normalize = ⟨0, 0, 0⟩ := by
  unfold Vec3.normalize
  rw [if_pos]
  unfold Vec3.length
  norm_num

theorem sphereOfBoxes_radius_nonneg (boxes : List Box3) :
    0 ≤ (sphereOfBoxes boxes).radius := by
  unfold sphereOfBoxes
  cases Box3.setFromPoints (boxMinMaxPoints boxes) with
  | none => simp
  | some b =>
    show 0 ≤ (b.getBoundingSphere).radius
    unfold Box3.getBoundingSphere Vec3.length
    dsimp only
    positivity

theorem sphereOfBoxes_boxA :
    sphereOfBoxes [boxA] = ⟨⟨0, 0, 0⟩, Real.sqrt 12 / 2⟩ := by
  simp only [sphereOfBoxes, boxMinMaxPoints, Box3.setFromPoints, List.foldl,
    Box3.expandByPoint, Vec3.minV, Vec3.maxV, Box3.getBoundingSphere,
    Vec3.addVectors, Vec3.subVectors, Vec3.multiplyScalar, Vec3.length, boxA]
  norm_num

/-! ## Claim theorems -/

/-- C7: if no model is registered under the fixed slot identifier, or the
camera has no controls attached, `FitModelToWindow` returns without doing
anything: position, look-at target, near/far planes and projection are all
left unchanged, and no error is raised. -/
theorem FitModelToWindow_noop (boxes? : Option (List Box3)) (hasControls : Bool)
    (cam : CameraState) (h : boxes? = none ∨ hasControls = false) :
    FitModelToWindow boxes? hasControls cam = cam := by
  rcases h with h | h
  · subst h
    rfl
  · subst h
    cases boxes? <;> rfl

theorem FitModelToWindow_noop_witness :
    FitModelToWindow none false camA = camA :=
  FitModelToWindow_noop none false camA (Or.inl rfl)

/-- C10: if the camera's position coincides exactly with the bounding-sphere
center, no fallback direction is applied: the center-to-eye vector
normalizes to the zero vector, the computed eye equals the sphere center
regardless of the computed distance, and the camera is aimed from the
center at the center. -/
theorem FitModelToWindow_degenerate_center (boxes : List Box3) (cam : CameraState)
    (h : cam.position = (sphereOfBoxes boxes).center) :
    (cam.position.subVectors (sphereOfBoxes boxes).center).normalize = ⟨0, 0, 0⟩
    ∧ (FitModelToWindow (some boxes) true cam).position = (sphereOfBoxes boxes).center
    ∧ (FitModelToWindow (some boxes) true cam).target = (sphereOfBoxes boxes).center := by
  have hsub : cam.position.subVectors (sphereOfBoxes boxes).center = ⟨0, 0, 0⟩ :=
    (Vec3.subVectors_eq_zero_iff _ _).mpr h
  refine ⟨?_, ?_, rfl⟩
  · rw [hsub, Vec3.normalize_zero]
  · show ((sphereOfBoxes boxes).center.addVectors
        (((cam.position.subVectors (sphereOfBoxes boxes).center).normalize).multiplyScalar
          ((sphereOfBoxes boxes).radius /
            Real.sin (degToRad (effectiveHalfFov cam.fov cam.aspect)))))
      = (sphereOfBoxes boxes).center
    rw [hsub, Vec3.normalize_zero]
    unfold Vec3.multiplyScalar Vec3.addVectors
    ext <;> dsimp only <;> ring

theorem FitModelToWindow_degenerate_center_witness :
    ((camB.position.subVectors (sphereOfBoxes [boxA]).center).normalize = ⟨0, 0, 0⟩)
    ∧ (FitModelToWindow (some [boxA]) true camB).position = (sphereOfBoxes [boxA]).center
    ∧ (FitModelToWindow (some [boxA]) true camB).target = (sphereOfBoxes [boxA]).center :=
  FitModelToWindow_degenerate_center [boxA] camB
    (by rw [sphereOfBoxes_boxA]; simp [camB])

/-- C2: the Camera Framer forms the point set of the min and max corner of
every box reported by the model, takes the axis-aligned bounding box of
that set, and uses its bounding sphere; for boxes `(-1,-1,-1)…(1,1,1)` and
`(1,1,1)…(3,3,3)` the sphere center is `(1,1,1)` and the radius is half the
diagonal of the combined box `(-1,-1,-1)…(3,3,3)`, i.e. `2 * sqrt 3`. -/
theorem framing_sphere_of_two_boxes :
    boxMinMaxPoints [boxA, boxB] = [boxA.min, boxA.max, boxB.min, boxB.max]
    ∧ Box3.setFromPoints (boxMinMaxPoints [boxA, boxB])
        = some ⟨⟨-1, -1, -1⟩, ⟨3, 3, 3⟩⟩
    ∧ (sphereOfBoxes [boxA, boxB]).center = ⟨1, 1, 1⟩
    ∧ (sphereOfBoxes [boxA, boxB]).radius
        = (Vec3.subVectors ⟨3, 3, 3⟩ ⟨-1, -1, -1⟩).length / 2
    ∧ (sphereOfBoxes [boxA, boxB]).radius = 2 * Real.sqrt 3 := by
  have hpts : boxMinMaxPoints [boxA, boxB]
      = [boxA.min, boxA.max, boxB.min, boxB.max] := rfl
  have hbox : Box3.setFromPoints (boxMinMaxPoints [boxA, boxB])
      = some ⟨⟨-1, -1, -1⟩, ⟨3, 3, 3⟩⟩ := by
    simp only [boxMinMaxPoints, Box3.setFromPoints, List.foldl,
      Box3.expandByPoint, Vec3.minV, Vec3.maxV, boxA, boxB]
    norm_num
  have hsphere : sphereOfBoxes [boxA, boxB]
      = ⟨⟨1, 1, 1⟩, (Vec3.subVectors ⟨3, 3, 3⟩ ⟨-1, -1, -1⟩).length / 2⟩ := by
    unfold sphereOfBoxes
    rw [hbox]
    simp only [Box3.getBoundingSphere, Vec3.addVectors, Vec3.multiplyScalar,
      Vec3.subVectors]
    norm_num
  have hrad : (Vec3.subVectors ⟨3, 3, 3⟩ ⟨-1, -1, -1⟩).length / 2
      = 2 * Real.sqrt 3 := by
    simp only [Vec3.subVectors, Vec3.length]
    norm_num
    rw [show (48 : ℝ) = 4 ^ 2 * 3 by norm_num,
      Real.sqrt_mul (by norm_num : (0 : ℝ) ≤ 4 ^ 2),
      Real.sqrt_sq (by norm_num : (0 : ℝ) ≤ 4)]
    ring
  refine ⟨hpts, hbox, ?_, ?_, ?_⟩
  · rw [hsphere]
  · rw [hsphere]
  · rw [hsphere]
    exact hrad

/-- C3: for a loaded model and a perspective camera with controls, the
effective half field of view is half the vertical fov, scaled by the aspect
ratio exactly when the aspect ratio is less than 1, and the camera is
placed at distance `radius / sin (effective half-angle)` from the sphere
center along the normalized direction from the center to the camera's
current position. -/
theorem FitModelToWindow_camera_placement (boxes : List Box3) (cam : CameraState)
    (hpos : cam.position ≠ (sphereOfBoxes boxes).center)
    (hdist : 0 ≤ (sphereOfBoxes boxes).radius /
      Real.sin (degToRad (effectiveHalfFov cam.fov cam.aspect))) :
    effectiveHalfFov cam.fov cam.aspect
        = (if cam.aspect < 1 then cam.fov / 2 * cam.aspect else cam.fov / 2)
    ∧ (FitModelToWindow (some boxes) true cam).position
        = (sphereOfBoxes boxes).center.addVectors
            (((cam.position.subVectors (sphereOfBoxes boxes).center).normalize).multiplyScalar
              ((sphereOfBoxes boxes).radius /
                Real.sin (degToRad (effectiveHalfFov cam.fov cam.aspect))))
    ∧ ((FitModelToWindow (some boxes) true cam).position.subVectors
          (sphereOfBoxes boxes).center).length
        = (sphereOfBoxes boxes).radius /
            Real.sin (degToRad (effectiveHalfFov cam.fov cam.aspect)) := by
  have hsub : cam.position.subVectors (sphereOfBoxes boxes).center ≠ ⟨0, 0, 0⟩ := by
    intro h0
    exact hpos ((Vec3.subVectors_eq_zero_iff _ _).mp h0)
  have hlen : (cam.position.subVectors (sphereOfBoxes boxes).center).length ≠ 0 := by
    intro h0
    exact hsub ((Vec3.length_eq_zero_iff _).mp h0)
  refine ⟨rfl, rfl, ?_⟩
  show (((sphereOfBoxes boxes).center.addVectors
      (((cam.position.subVectors (sphereOfBoxes boxes).center).normalize).multiplyScalar
        ((sphereOfBoxes boxes).radius /
          Real.sin (degToRad (effectiveHalfFov cam.fov cam.aspect))))).subVectors
      (sphereOfBoxes boxes).center).length = _
  rw [Vec3.addVectors_sub_cancel, Vec3.length_multiplyScalar,
    Vec3.length_normalize _ hlen, mul_one, abs_of_nonneg hdist]

theorem FitModelToWindow_camera_placement_witness :
    effectiveHalfFov camA.fov camA.aspect
        = (if camA.aspect < 1 then camA.fov / 2 * camA.aspect else camA.fov / 2)
    ∧ (FitModelToWindow (some [boxA]) true camA).position
        = (sphereOfBoxes [boxA]).center.addVectors
            (((camA.position.subVectors (sphereOfBoxes [boxA]).center).normalize).multiplyScalar
              ((sphereOfBoxes [boxA]).radius /
                Real.sin (degToRad (effectiveHalfFov camA.fov camA.aspect))))
    ∧ ((FitModelToWindow (some [boxA]) true camA).position.subVectors
          (sphereOfBoxes [boxA]).center).length
        = (sphereOfBoxes [boxA]).radius /
            Real.sin (degToRad (effectiveHalfFov camA.fov camA.aspect)) :=
  FitModelToWindow_camera_placement [boxA] camA
    (by
      rw [sphereOfBoxes_boxA]
      simp [camA, Vec3.mk.injEq])
    (by
      have hang : degToRad (effectiveHalfFov camA.fov camA.aspect) = Real.pi / 6 := by
        norm_num [camA, effectiveHalfFov, degToRad]
        ring
      rw [hang, Real.sin_pi_div_six]
      exact div_nonneg (sphereOfBoxes_radius_nonneg [boxA]) (by norm_num))

/-- Every load operation's trace starts with a dispose of the fixed slot. -/
theorem opTrace_head (op : LoadOp) :
    ∃ t, opTrace op = Event.disposeModel ModelIdentifier :: t := by
  cases op with
  | fromBuffer env => exact ⟨_, rfl⟩
  | fromUrl env url => exact ⟨_, rfl⟩

/-- C1: in any sequence of load operations, a submission of a buffer to the
decode service under the fixed slot is always preceded by a dispose of the
same slot, so at most one model occupies the slot at a time. -/
theorem dispose_precedes_submit (ops : List LoadOp) (i : Nat)
    (hload : (opsTrace ops).get? i = some (Event.submitToDecode ModelIdentifier)) :
    ∃ j < i, (opsTrace ops).get? j = some (Event.disposeModel ModelIdentifier) := by
  cases ops with
  | nil => simp [opsTrace] at hload
  | cons op rest =>
    obtain ⟨t, ht⟩ := opTrace_head op
    have htr : opsTrace (op :: rest)
        = Event.disposeModel ModelIdentifier :: (t ++ opsTrace rest) := by
      simp [opsTrace, ht]
    refine ⟨0, ?_, ?_⟩
    · rcases Nat.eq_zero_or_pos i with h0 | h0
      · subst h0
        rw [htr] at hload
        simp at hload
      · exact h0
    · rw [htr]
      rfl

theorem dispose_precedes_submit_witness :
    ∃ j < 4, (opsTrace [LoadOp.fromBuffer ⟨false, false, false⟩]).get? j
      = some (Event.disposeModel ModelIdentifier) :=
  dispose_precedes_submit [LoadOp.fromBuffer ⟨false, false, false⟩] 4 (by decide)

/-- C4: when the fetch or the body read throws, `LoadModelFromUrl` has
already disposed the slot (the dispose is the first effect), submits
nothing to the decode service, propagates no error to its caller, leaves
no model loaded, and the status indicator ends hidden. -/
theorem LoadModelFromUrl_fetch_failure (env : Env) (url : String)
    (loaded visible : Bool)
    (h : env.fetchThrows = true ∨ env.bodyThrows = true) :
    (LoadModelFromUrl env url).1.head? = some (Event.disposeModel ModelIdentifier)
    ∧ Event.submitToDecode ModelIdentifier ∉ (LoadModelFromUrl env url).1
    ∧ (LoadModelFromUrl env url).2 = false
    ∧ modelLoadedAfter loaded (LoadModelFromUrl env url).1 = false
    ∧ progressVisibleAfter visible (LoadModelFromUrl env url).1 = false := by
  obtain ⟨f, b, d⟩ := env
  cases f <;> cases b <;> cases d <;>
    simp_all [LoadModelFromUrl, LoadModelFromUrlBody, LoadModelInternal,
      LoadModelInternalBody, ModelIdentifier, modelLoadedAfter,
      progressVisibleAfter]

theorem LoadModelFromUrl_fetch_failure_witness :
    (LoadModelFromUrl ⟨true, false, false⟩ "stacked_towers.frag").1.head?
        = some (Event.disposeModel ModelIdentifier)
    ∧ Event.submitToDecode ModelIdentifier
        ∉ (LoadModelFromUrl ⟨true, false, false⟩ "stacked_towers.frag").1
    ∧ (LoadModelFromUrl ⟨true, false, false⟩ "stacked_towers.frag").2 = false
    ∧ modelLoadedAfter true (LoadModelFromUrl ⟨true, false, false⟩ "stacked_towers.frag").1 = false
    ∧ progressVisibleAfter true (LoadModelFromUrl ⟨true, false, false⟩ "stacked_towers.frag").1 = false :=
  LoadModelFromUrl_fetch_failure ⟨true, false, false⟩ "stacked_towers.frag"
    true true (Or.inl rfl)

/-- C5: `LoadModelInternal` never propagates an exception, so
`LoadModelFromBuffer` hides the status indicator unconditionally after the
decode step (its trace ends with the hide, and the indicator ends hidden),
no error reaches the caller, and on decode failure no model is loaded — the
view stays in the disposed state. -/
theorem LoadModelFromBuffer_always_hides (env : Env) (loaded visible : Bool) :
    (LoadModelInternal env).2 = false
    ∧ (LoadModelFromBuffer env).2 = false
    ∧ (LoadModelFromBuffer env).1.getLast? = some Event.progressHide
    ∧ progressVisibleAfter visible (LoadModelFromBuffer env).1 = false
    ∧ (env.decodeThrows = true →
        modelLoadedAfter loaded (LoadModelFromBuffer env).1 = false) := by
  obtain ⟨f, b, d⟩ := env
  cases f <;> cases b <;> cases d <;> cases loaded <;> cases visible <;> decide

theorem LoadModelFromBuffer_always_hides_witness :
    (LoadModelInternal ⟨false, false, true⟩).2 = false
    ∧ (LoadModelFromBuffer ⟨false, false, true⟩).2 = false
    ∧ (LoadModelFromBuffer ⟨false, false, true⟩).1.getLast? = some Event.progressHide
    ∧ progressVisibleAfter true (LoadModelFromBuffer ⟨false, false, true⟩).1 = false
    ∧ modelLoadedAfter true (LoadModelFromBuffer ⟨false, false, true⟩).1 = false := by
  have h := LoadModelFromBuffer_always_hides ⟨false, false, true⟩ true true
  exact ⟨h.1, h.2.1, h.2.2.1, h.2.2.2.1, h.2.2.2.2 rfl⟩

/-- Helper: a string of length zero is the empty string. -/
theorem string_eq_empty_of_length_eq_zero (s : String) (h : s.length = 0) :
    s = "" := by
  cases s with
  | mk data =>
    simp [String.length] at h
    simp [h]

/-- C6: `LoadModelFromUrlHash` on the empty string is a no-op (no events at
all, hence no fetch, no dispose, no status change); on a non-empty hash it
strips the leading character and delegates to `LoadModelFromUrl` with the
remainder, so `"#foo.frag"` triggers a download of `"foo.frag"`. -/
theorem LoadModelFromUrlHash_spec (env : Env) (hash : String) (h : hash ≠ "") :
    LoadModelFromUrlHash env "" = ([], false)
    ∧ LoadModelFromUrlHash env hash = LoadModelFromUrl env (hash.drop 1)
    ∧ LoadModelFromUrlHash env "#foo.frag" = LoadModelFromUrl env "foo.frag"
    ∧ Event.fetchUrl "foo.frag" ∈ (LoadModelFromUrlHash env "#foo.frag").1 := by
  have hlen : hash.length ≠ 0 := fun h0 =>
    h (string_eq_empty_of_length_eq_zero hash h0)
  refine ⟨rfl, ?_, ?_, ?_⟩
  · unfold LoadModelFromUrlHash
    rw [if_neg hlen]
  · show LoadModelFromUrlHash env "#foo.frag" = LoadModelFromUrl env "foo.frag"
    unfold LoadModelFromUrlHash
    rw [if_neg (by decide), show ("#foo.frag".drop 1) = "foo.frag" by decide]
  · show Event.fetchUrl "foo.frag" ∈ (LoadModelFromUrlHash env "#foo.frag").1
    unfold LoadModelFromUrlHash
    rw [if_neg (by decide), show ("#foo.frag".drop 1) = "foo.frag" by decide]
    obtain ⟨f, b, d⟩ := env
    cases f <;> cases b <;> cases d <;> decide

theorem LoadModelFromUrlHash_spec_witness :
    LoadModelFromUrlHash ⟨false, false, false⟩ "" = ([], false)
    ∧ LoadModelFromUrlHash ⟨false, false, false⟩ "#foo.frag"
        = LoadModelFromUrl ⟨false, false, false⟩ ("#foo.frag".drop 1)
    ∧ LoadModelFromUrlHash ⟨false, false, false⟩ "#foo.frag"
        = LoadModelFromUrl ⟨false, false, false⟩ "foo.frag"
    ∧ Event.fetchUrl "foo.frag" ∈ (LoadModelFromUrlHash ⟨false, false, false⟩ "#foo.frag").1 :=
  LoadModelFromUrlHash_spec ⟨false, false, false⟩ "#foo.frag" (by decide)

/-- C8: a drop whose item count is not exactly one triggers neither a load
nor a disposal: the handler produces no effects, so the model slot and the
status indicator are unchanged. -/
theorem DropHandler_rejects_non_single (env : Env) (items : List DropItem)
    (loaded visible : Bool) (h : items.length ≠ 1) :
    DropHandler env items = ([], false)
    ∧ Event.disposeModel ModelIdentifier ∉ (DropHandler env items).1
    ∧ Event.submitToDecode ModelIdentifier ∉ (DropHandler env items).1
    ∧ modelLoadedAfter loaded (DropHandler env items).1 = loaded
    ∧ progressVisibleAfter visible (DropHandler env items).1 = visible := by
  have h0 : DropHandler env items = ([], false) := by
    unfold DropHandler
    rw [if_pos h]
  refine ⟨h0, ?_, ?_, ?_, ?_⟩ <;> rw [h0] <;>
    simp [modelLoadedAfter, progressVisibleAfter]

theorem DropHandler_rejects_non_single_witness :
    DropHandler ⟨false, false, false⟩ [⟨some ⟨some ()⟩⟩, ⟨some ⟨some ()⟩⟩] = ([], false)
    ∧ Event.disposeModel ModelIdentifier
        ∉ (DropHandler ⟨false, false, false⟩ [⟨some ⟨some ()⟩⟩, ⟨some ⟨some ()⟩⟩]).1
    ∧ Event.submitToDecode ModelIdentifier
        ∉ (DropHandler ⟨false, false, false⟩ [⟨some ⟨some ()⟩⟩, ⟨some ⟨some ()⟩⟩]).1
    ∧ modelLoadedAfter true (DropHandler ⟨false, false, false⟩ [⟨some ⟨some ()⟩⟩, ⟨some ⟨some ()⟩⟩]).1 = true
    ∧ progressVisibleAfter false (DropHandler ⟨false, false, false⟩ [⟨some ⟨some ()⟩⟩, ⟨some ⟨some ()⟩⟩]).1 = false :=
  DropHandler_rejects_non_single ⟨false, false, false⟩
    [⟨some ⟨some ()⟩⟩, ⟨some ⟨some ()⟩⟩] true false (by decide)

/-- C9: after a successful decode the `childadded` listener is registered,
and for every `childadded` event the listener sets the `side` of every
material of the added child to `DoubleSide`. -/
theorem childadded_all_materials_double_sided (env : Env) (child : MeshChild)
    (m : Material) (hsuccess : env.decodeThrows = false)
    (hm : m ∈ (onChildAdded child).material) :
    Event.addChildAddedListener ∈ (LoadModelInternal env).1
    ∧ m.side = Side.DoubleSide := by
  constructor
  · simp [LoadModelInternal, LoadModelInternalBody, hsuccess]
  · simp only [onChildAdded, List.mem_map] at hm
    obtain ⟨m', _, rfl⟩ := hm
    rfl

theorem childadded_all_materials_double_sided_witness :
    Event.addChildAddedListener ∈ (LoadModelInternal ⟨false, false, false⟩).1
    ∧ (⟨Side.DoubleSide⟩ : Material).side = Side.DoubleSide :=
  childadded_all_materials_double_sided ⟨false, false, false⟩
    ⟨[⟨Side.FrontSide⟩]⟩ ⟨Side.DoubleSide⟩ rfl (by decide)
